import Mathlib

/-!
Verification of the booking domain of the mobile-mechanic platform.

The data model and access-control predicates are embedded from
`src/supabase/migrations/20260214133256_create_mechanic_platform_schema.sql`
(tables `profiles`, `mechanics`, `services`, `bookings`, `reviews`, their
check constraints, foreign-key delete actions, and row-level-security
policies), and the booking-creation workflow from
`src/app/booking/create.tsx` (`handleSubmit`, `loadData`).

Modelling conventions: `uuid` columns become `Nat` keys, `numeric` becomes
`Rat`, `timestamptz` becomes `Nat`, `text` becomes `String`, nullable
columns become `Option`.  Row-level security is modelled as in PostgreSQL:
permissive policies for the same operation are OR-ed; an UPDATE is gated by
the USING predicates on the pre-image and the WITH CHECK predicates on the
post-image; check constraints and foreign keys gate every write.
-/

/-- Row of the `profiles` table. -/
structure Profile where
  id : Nat
  email : String
  full_name : String
  phone : Option String
  user_type : String
  created_at : Nat
  updated_at : Nat
  deriving DecidableEq, Repr

/-- Row of the `mechanics` table. -/
structure Mechanic where
  id : Nat
  user_id : Nat
  business_name : String
  certifications : List String
  years_experience : Int
  service_radius : Int
  rating : Rat
  total_jobs : Int
  is_available : Bool
  current_latitude : Option Rat
  current_longitude : Option Rat
  created_at : Nat
  deriving DecidableEq, Repr

/-- Row of the `services` table. -/
structure Service where
  id : Nat
  name : String
  description : String
  category : String
  base_price : Rat
  estimated_duration : Int
  created_at : Nat
  deriving DecidableEq, Repr

/-- Row of the `bookings` table. -/
structure Booking where
  id : Nat
  customer_id : Nat
  mechanic_id : Option Nat
  service_id : Nat
  status : String
  vehicle_make : String
  vehicle_model : String
  vehicle_year : Int
  location_address : String
  location_latitude : Rat
  location_longitude : Rat
  scheduled_time : Nat
  total_price : Rat
  notes : String
  created_at : Nat
  updated_at : Nat
  deriving DecidableEq, Repr

/-- Row of the `reviews` table. -/
structure Review where
  id : Nat
  booking_id : Nat
  customer_id : Nat
  mechanic_id : Nat
  rating : Int
  comment : String
  created_at : Nat
  deriving DecidableEq, Repr

/-- The five tables of the store. -/
structure DB where
  profiles : List Profile
  mechanics : List Mechanic
  services : List Service
  bookings : List Booking
  reviews : List Review
  deriving DecidableEq, Repr

/-- `valid_status` check constraint on `bookings`:
`status IN ('pending', 'accepted', 'in_progress', 'completed', 'cancelled')`. -/
def validStatus (s : String) : Bool :=
  s == "pending" || s == "accepted" || s == "in_progress" ||
    s == "completed" || s == "cancelled"

/-- `valid_rating` check constraint on `reviews`: `rating >= 1 AND rating <= 5`. -/
def validRating (r : Int) : Bool :=
  1 ≤ r && r ≤ 5

/-- The subquery `SELECT id FROM mechanics WHERE user_id = auth.uid()`. -/
def mechanicIdsOf (db : DB) (uid : Nat) : List Nat :=
  (db.mechanics.filter (fun m => m.user_id == uid)).map (fun m => m.id)

/-- Combined SELECT permission on `bookings`: policy
"Customers can view own bookings" (`customer_id = auth.uid()`) OR policy
"Mechanics can view assigned bookings"
(`mechanic_id IN (SELECT id FROM mechanics WHERE user_id = auth.uid())`);
a NULL `mechanic_id` satisfies no IN-list. -/
def bookingSelectAllowed (db : DB) (uid : Nat) (b : Booking) : Bool :=
  b.customer_id == uid ||
    (match b.mechanic_id with
     | some mid => (mechanicIdsOf db uid).contains mid
     | none => false)

/-- The booking list a principal `uid` receives: the rows of `bookings`
that pass the SELECT policies. -/
def readBookings (db : DB) (uid : Nat) : List Booking :=
  db.bookings.filter (fun b => bookingSelectAllowed db uid b)

/-- Combined USING predicate of the UPDATE policies on `bookings`
("Customers can update own bookings" OR
"Mechanics can update assigned bookings"), evaluated on the pre-image. -/
def bookingUpdateUsing (db : DB) (uid : Nat) (b : Booking) : Bool :=
  b.customer_id == uid ||
    (match b.mechanic_id with
     | some mid => (mechanicIdsOf db uid).contains mid
     | none => false)

/-- Combined WITH CHECK predicate of the UPDATE policies on `bookings`,
evaluated on the post-image. -/
def bookingUpdateCheck (db : DB) (uid : Nat) (b : Booking) : Bool :=
  b.customer_id == uid ||
    (match b.mechanic_id with
     | some mid => (mechanicIdsOf db uid).contains mid
     | none => false)

/-- WITH CHECK predicate of the INSERT policy
"Customers can create bookings": `customer_id = auth.uid()`. -/
def bookingInsertCheck (uid : Nat) (b : Booking) : Bool :=
  b.customer_id == uid

/-- WITH CHECK predicate of the INSERT policy
"Customers can create reviews for their bookings": `customer_id = auth.uid()`. -/
def reviewInsertCheck (uid : Nat) (r : Review) : Bool :=
  r.customer_id == uid

/-- Foreign keys of a `bookings` row: `customer_id REFERENCES profiles`
(NOT NULL), `service_id REFERENCES services` (NOT NULL),
`mechanic_id REFERENCES mechanics` (nullable). -/
def bookingFksOk (db : DB) (b : Booking) : Bool :=
  db.profiles.any (fun p => p.id == b.customer_id) &&
  db.services.any (fun s => s.id == b.service_id) &&
  (match b.mechanic_id with
   | some mid => db.mechanics.any (fun m => m.id == mid)
   | none => true)

/-- Foreign keys of a `reviews` row: `booking_id REFERENCES bookings`,
`customer_id REFERENCES profiles`, `mechanic_id REFERENCES mechanics`,
all NOT NULL. -/
def reviewFksOk (db : DB) (r : Review) : Bool :=
  db.bookings.any (fun b => b.id == r.booking_id) &&
  db.profiles.any (fun p => p.id == r.customer_id) &&
  db.mechanics.any (fun m => m.id == r.mechanic_id)

/-- Errors a write against the store can surface. -/
inductive DbError where
  | rlsDenied : DbError
  | fkViolation : DbError
  | checkViolation : DbError
  deriving DecidableEq, Repr

/-- INSERT into `bookings` by principal `uid`: RLS WITH CHECK, then
foreign keys, then the `valid_status` check constraint; on success the row
is appended. -/
def insertBooking (db : DB) (uid : Nat) (b : Booking) : Except DbError DB :=
  if !(bookingInsertCheck uid b) then .error .rlsDenied
  else if !(bookingFksOk db b) then .error .fkViolation
  else if !(validStatus b.status) then .error .checkViolation
  else .ok { db with bookings := db.bookings ++ [b] }

/-- UPDATE of one `bookings` row (pre-image `old`, post-image `new`) by
principal `uid`: the pre-image must pass a USING predicate, the post-image
a WITH CHECK predicate, the `valid_status` constraint and the foreign
keys; on success the row is replaced in place. -/
def updateBookingRow (db : DB) (uid : Nat) (old new : Booking) :
    Except DbError DB :=
  if !(bookingUpdateUsing db uid old) then .error .rlsDenied
  else if !(bookingUpdateCheck db uid new) then .error .rlsDenied
  else if !(validStatus new.status) then .error .checkViolation
  else if !(bookingFksOk db new) then .error .fkViolation
  else .ok { db with bookings := db.bookings.map (fun b => if b = old then new else b) }

/-- INSERT into `reviews` by principal `uid`: RLS WITH CHECK, then foreign
keys, then the `valid_rating` check constraint. -/
def insertReview (db : DB) (uid : Nat) (r : Review) : Except DbError DB :=
  if !(reviewInsertCheck uid r) then .error .rlsDenied
  else if !(reviewFksOk db r) then .error .fkViolation
  else if !(validRating r.rating) then .error .checkViolation
  else .ok { db with reviews := db.reviews ++ [r] }

/-- `loadData` of `src/app/booking/create.tsx`: the screen loads the
service by id (`.eq('id', serviceId).maybeSingle()`). -/
def loadService (db : DB) (serviceId : Nat) : Option Service :=
  db.services.find? (fun s => s.id == serviceId)

/-- The form state of the create-booking screen: text inputs start as the
empty string, the mechanic pick starts as null. -/
structure CreateForm where
  vehicleMake : String
  vehicleModel : String
  vehicleYear : String
  locationAddress : String
  selectedMechanic : Option Nat
  notes : String
  deriving DecidableEq, Repr

/-- Outcome of submitting the create-booking screen: the client-side
validation message, a store error surfaced via `error.message`, or
success (navigation to the bookings list). -/
inductive SubmitResult where
  | validationFailed : SubmitResult
  | dbRejected : DbError → SubmitResult
  | success : DB → SubmitResult
  deriving DecidableEq, Repr

/-- The row `handleSubmit` of `src/app/booking/create.tsx` inserts:
`customer_id` is the authenticated profile's id, `mechanic_id` the picked
mechanic, `status` the literal `'pending'`, `total_price` the loaded
service's `base_price` with JavaScript `|| 0` defaulting (0 when no
service row was loaded; `x || 0 = x` on every rational since `Rat` has no
NaN and `0 || 0 = 0`), latitude/longitude the literal 0, and
`vehicle_year` the `parseInt` of the year input (modelled `toInt?`,
defaulting to 0). -/
def buildRow (db : DB) (uid : Nat) (serviceId : Nat) (form : CreateForm)
    (newId now : Nat) : Booking :=
  { id := newId
    customer_id := uid
    mechanic_id := form.selectedMechanic
    service_id := serviceId
    status := "pending"
    vehicle_make := form.vehicleMake
    vehicle_model := form.vehicleModel
    vehicle_year := (form.vehicleYear.toInt?).getD 0
    location_address := form.locationAddress
    location_latitude := 0
    location_longitude := 0
    scheduled_time := now
    total_price := match loadService db serviceId with
      | some s => s.base_price
      | none => 0
    notes := form.notes
    created_at := now
    updated_at := now }

/-- `handleSubmit` of `src/app/booking/create.tsx`: if any of the four
text inputs is empty (JavaScript falsy) or no mechanic is selected, set
the error message and return; otherwise insert the built row and surface
any store error. -/
def handleSubmit (db : DB) (uid : Nat) (serviceId : Nat) (form : CreateForm)
    (newId now : Nat) : SubmitResult :=
  if form.vehicleMake == "" || form.vehicleModel == "" ||
      form.vehicleYear == "" || form.locationAddress == "" ||
      form.selectedMechanic == none then
    .validationFailed
  else
    match insertBooking db uid (buildRow db uid serviceId form newId now) with
    | .ok db2 => .success db2
    | .error e => .dbRejected e

/-- A later price change to the catalog: UPDATE of `base_price` on the
`services` row with the given id. -/
def updateServicePrice (db : DB) (sid : Nat) (p : Rat) : DB :=
  { db with
      services := db.services.map
        (fun s => if s.id = sid then { s with base_price := p } else s) }

/-- DELETE of a `mechanics` row: the row is removed; by
`mechanic_id uuid REFERENCES mechanics(id) ON DELETE SET NULL` every
`bookings` row that referenced it gets `mechanic_id = null`; by
`mechanic_id uuid REFERENCES mechanics(id) ON DELETE CASCADE` every
`reviews` row that referenced it is deleted. -/
def deleteMechanic (db : DB) (mid : Nat) : DB :=
  { db with
      mechanics := db.mechanics.filter (fun m => m.id ≠ mid)
      bookings := db.bookings.map
        (fun b => if b.mechanic_id = some mid then { b with mechanic_id := none } else b)
      reviews := db.reviews.filter (fun r => r.mechanic_id ≠ mid) }

/-- DELETE of a `profiles` row and its transitive foreign-key actions:
`mechanics.user_id`, `bookings.customer_id` and `reviews.customer_id` all
CASCADE; the deleted mechanics rows SET NULL on their bookings and CASCADE
their reviews; the deleted bookings rows CASCADE their reviews. -/
def deleteProfile (db : DB) (pid : Nat) : DB :=
  let deadMechIds := (db.mechanics.filter (fun m => m.user_id == pid)).map (fun m => m.id)
  let deadBookingIds := (db.bookings.filter (fun b => b.customer_id == pid)).map (fun b => b.id)
  { profiles := db.profiles.filter (fun q => q.id ≠ pid)
    mechanics := db.mechanics.filter (fun m => m.user_id ≠ pid)
    services := db.services
    bookings :=
      (db.bookings.filter (fun b => b.customer_id ≠ pid)).map
        (fun b => match b.mechanic_id with
          | some mid => if deadMechIds.contains mid then { b with mechanic_id := none } else b
          | none => b)
    reviews :=
      db.reviews.filter (fun r =>
        r.customer_id ≠ pid ∧ ¬ deadMechIds.contains r.mechanic_id ∧
          ¬ deadBookingIds.contains r.booking_id) }

/-- Outcome of a mechanic's acceptance attempt. -/
inductive AcceptResult where
  | accepted : DB → AcceptResult
  | conflict : AcceptResult
  deriving DecidableEq, Repr

/-- Modelled from the spec: the mechanic-side acceptance operation is in
no source file of the repository (only the schema and customer-side
screens are); spec §5 requires it to be a conditional update — "set
mechanic_id and status only if status is still pending and mechanic_id is
still null" — where the loser observes zero rows affected and surfaces a
Conflict outcome.  Modelled as
`UPDATE bookings SET mechanic_id = mid, status = 'accepted' WHERE id = bid
AND status = 'pending' AND mechanic_id IS NULL`, with `Conflict` when no
row is affected. -/
def acceptBooking (db : DB) (bid mid : Nat) : AcceptResult :=
  if (db.bookings.filter
      (fun b => b.id == bid && b.status == "pending" && b.mechanic_id == none)).isEmpty then
    .conflict
  else
    .accepted
      { db with
          bookings := db.bookings.map
            (fun b =>
              if b.id == bid && b.status == "pending" && b.mechanic_id == none then
                { b with mechanic_id := some mid, status := "accepted" }
              else b) }

/-! Fixtures: the eight catalog rows seeded by the migration's INSERT
(uuid keys rendered 1..8) and small concrete rows for the closed
instances below. -/

/-- The migration's `INSERT INTO services ... VALUES` seed rows. -/
def seedServices : List Service :=
  [ { id := 1, name := "Oil Change",
      description := "Complete oil and filter change service",
      category := "maintenance", base_price := (4999 : Rat)/100,
      estimated_duration := 30, created_at := 0 },
    { id := 2, name := "Brake Inspection",
      description := "Comprehensive brake system inspection",
      category := "inspection", base_price := (3999 : Rat)/100,
      estimated_duration := 45, created_at := 0 },
    { id := 3, name := "Battery Replacement",
      description := "Battery testing and replacement",
      category := "repair", base_price := (12999 : Rat)/100,
      estimated_duration := 30, created_at := 0 },
    { id := 4, name := "Tire Rotation",
      description := "Four-wheel tire rotation and balance",
      category := "maintenance", base_price := (5999 : Rat)/100,
      estimated_duration := 45, created_at := 0 },
    { id := 5, name := "Engine Diagnostic",
      description := "Full engine diagnostic scan",
      category := "inspection", base_price := (8999 : Rat)/100,
      estimated_duration := 60, created_at := 0 },
    { id := 6, name := "Flat Tire Repair",
      description := "Emergency flat tire repair or replacement",
      category := "emergency", base_price := (7999 : Rat)/100,
      estimated_duration := 30, created_at := 0 },
    { id := 7, name := "Jump Start",
      description := "Emergency jump start service",
      category := "emergency", base_price := (3999 : Rat)/100,
      estimated_duration := 15, created_at := 0 },
    { id := 8, name := "Brake Pad Replacement",
      description := "Replace worn brake pads",
      category := "repair", base_price := (19999 : Rat)/100,
      estimated_duration := 90, created_at := 0 } ]

/-- Customer profile A (identity 10). -/
def profA : Profile :=
  { id := 10, email := "a@x.io", full_name := "A", phone := none,
    user_type := "customer", created_at := 0, updated_at := 0 }

/-- Customer profile B (identity 11). -/
def profB : Profile :=
  { id := 11, email := "b@x.io", full_name := "B", phone := none,
    user_type := "customer", created_at := 0, updated_at := 0 }

/-- Mechanic-role profile (identity 20). -/
def profM : Profile :=
  { id := 20, email := "m@x.io", full_name := "M", phone := none,
    user_type := "mechanic", created_at := 0, updated_at := 0 }

/-- Mechanic row 5, owned by identity 20. -/
def mech5 : Mechanic :=
  { id := 5, user_id := 20, business_name := "M Autos", certifications := [],
    years_experience := 3, service_radius := 10, rating := 0, total_jobs := 0,
    is_available := true, current_latitude := none, current_longitude := none,
    created_at := 0 }

/-- A store with the seeded catalog, the three profiles and mechanic 5. -/
def seedDb : DB :=
  { profiles := [profA, profB, profM], mechanics := [mech5],
    services := seedServices, bookings := [], reviews := [] }

/-! Helper lemmas about the policy predicates. -/

/-- The booking SELECT permission, spelled as a proposition. -/
theorem bookingSelectAllowed_iff (db : DB) (uid : Nat) (b : Booking) :
    bookingSelectAllowed db uid b = true ↔
      (b.customer_id = uid ∨
        ∃ m, m ∈ db.mechanics ∧ m.user_id = uid ∧ b.mechanic_id = some m.id) := by
  cases hm : b.mechanic_id with
  | none =>
    simp [bookingSelectAllowed, hm]
  | some mid =>
    simp only [bookingSelectAllowed, hm, mechanicIdsOf, Bool.or_eq_true, beq_iff_eq,
      List.contains, List.elem_iff, List.mem_map, List.mem_filter,
      Option.some.injEq]
    constructor
    · rintro (h | ⟨m, ⟨hmem, hu⟩, hid⟩)
      · exact Or.inl h
      · exact Or.inr ⟨m, hmem, hu, hid.symm⟩
    · rintro (h | ⟨m, hmem, hu, hid⟩)
      · exact Or.inl h
      · exact Or.inr ⟨m, ⟨hmem, hu⟩, hid.symm⟩

/-- **C1.** For every authenticated principal, the booking read returns
exactly the rows whose `customer_id` is the principal or whose
`mechanic_id` is a mechanic row owned by the principal; in particular a
principal A cannot read a booking whose customer is another principal B
and whose `mechanic_id` is null. -/
theorem C1_booking_read_exact :
    (∀ db uid b, b ∈ readBookings db uid ↔
       (b ∈ db.bookings ∧ (b.customer_id = uid ∨
          ∃ m, m ∈ db.mechanics ∧ m.user_id = uid ∧ b.mechanic_id = some m.id)))
  ∧ (∀ db uidA b, b ∈ db.bookings → b.customer_id ≠ uidA → b.mechanic_id = none →
       b ∉ readBookings db uidA) := by
  have hmain : ∀ db uid b, b ∈ readBookings db uid ↔
      (b ∈ db.bookings ∧ (b.customer_id = uid ∨
        ∃ m, m ∈ db.mechanics ∧ m.user_id = uid ∧ b.mechanic_id = some m.id)) := by
    intro db uid b
    rw [readBookings, List.mem_filter, bookingSelectAllowed_iff]
  refine ⟨hmain, ?_⟩
  intro db uidA b hb hne hnone hmem
  rcases (hmain db uidA b).mp hmem with ⟨-, h | ⟨m, -, -, hid⟩⟩
  · exact hne h
  · rw [hnone] at hid
    exact Option.noConfusion hid

/-- A booking of customer B (identity 11), unassigned. -/
def bookingB : Booking :=
  { id := 1, customer_id := 11, mechanic_id := none, service_id := 1,
    status := "pending", vehicle_make := "Toyota", vehicle_model := "Camry",
    vehicle_year := 2020, location_address := "1 Main St",
    location_latitude := 0, location_longitude := 0, scheduled_time := 0,
    total_price := (4999 : Rat)/100, notes := "", created_at := 0,
    updated_at := 0 }

/-- The seeded store holding only B's unassigned booking. -/
def dbWithBookingB : DB :=
  { seedDb with bookings := [bookingB] }

/-- Closed instance of C1: principal A (identity 10) cannot read B's
unassigned booking. -/
theorem C1_booking_read_exact_witness :
    bookingB ∉ readBookings dbWithBookingB 10 :=
  C1_booking_read_exact.2 dbWithBookingB 10 bookingB
    (by simp [dbWithBookingB]) (by simp [bookingB]) rfl

/-! Helper lemmas about the write operations. -/

/-- A successful booking INSERT appends the row and passed every gate. -/
theorem insertBooking_ok (db : DB) (uid : Nat) (b : Booking) (db2 : DB)
    (h : insertBooking db uid b = .ok db2) :
    db2 = { db with bookings := db.bookings ++ [b] } ∧
      bookingInsertCheck uid b = true ∧ bookingFksOk db b = true ∧
      validStatus b.status = true := by
  unfold insertBooking at h
  split at h
  · cases h
  · split at h
    · cases h
    · split at h
      · cases h
      · rename_i h1 h2 h3
        cases h
        simp only [Bool.not_eq_true', Bool.not_eq_false] at h1 h2 h3
        exact ⟨rfl, h1, h2, h3⟩

/-- A successful submit appends exactly the built row, and that row
passed the store's foreign-key check. -/
theorem handleSubmit_success (db : DB) (uid sid : Nat) (form : CreateForm)
    (newId now : Nat) (db2 : DB)
    (h : handleSubmit db uid sid form newId now = .success db2) :
    db2 = { db with bookings := db.bookings ++ [buildRow db uid sid form newId now] } ∧
      bookingFksOk db (buildRow db uid sid form newId now) = true := by
  unfold handleSubmit at h
  split at h
  · cases h
  · rcases hins : insertBooking db uid (buildRow db uid sid form newId now) with e | db3
    · rw [hins] at h
      cases h
    · rw [hins] at h
      cases h
      obtain ⟨hdb, -, hfk, -⟩ := insertBooking_ok db uid _ db2 hins
      exact ⟨hdb, hfk⟩

/-- If a booking row passes the foreign-key check, its service id
resolves in the catalog (the row `loadData` would fetch). -/
theorem bookingFksOk_service (db : DB) (b : Booking)
    (h : bookingFksOk db b = true) :
    ∃ s, loadService db b.service_id = some s ∧ s.id = b.service_id := by
  unfold bookingFksOk at h
  simp only [Bool.and_eq_true] at h
  obtain ⟨⟨-, hsvc⟩, -⟩ := h
  rw [List.any_eq_true] at hsvc
  obtain ⟨s, hmem, hid⟩ := hsvc
  have hsome : (db.services.find? (fun s => s.id == b.service_id)).isSome := by
    rw [List.find?_isSome]
    exact ⟨s, hmem, hid⟩
  obtain ⟨s0, hs0⟩ := Option.isSome_iff_exists.mp hsome
  have hp := List.find?_some hs0
  exact ⟨s0, hs0, by simpa using hp⟩

/-- The mechanic pick on the create screen, together with the form
fields the screen requires. -/
def oilForm : CreateForm :=
  { vehicleMake := "Toyota", vehicleModel := "Camry", vehicleYear := "2020",
    locationAddress := "1 Main St", selectedMechanic := some 5, notes := "" }

/-- The booking a successful submit produced (the appended row). -/
def submitNewBooking : SubmitResult → Option Booking
  | .success db2 => db2.bookings.getLast?
  | _ => none

/-- **C3.** Every successfully created booking has status `'pending'` and
`total_price` equal to the catalog `base_price` of the referenced service
at creation time; concretely, booking the seeded "Oil Change" row
(`base_price` 49.99) yields `total_price` 49.99 and status `'pending'`. -/
theorem C3_created_booking_snapshot :
    (∀ db uid sid form newId now db2,
        handleSubmit db uid sid form newId now = .success db2 →
        ∃ b s, db2.bookings = db.bookings ++ [b] ∧
          loadService db sid = some s ∧ s.id = sid ∧
          b.status = "pending" ∧ b.total_price = s.base_price)
  ∧ (submitNewBooking (handleSubmit seedDb 10 1 oilForm 101 0)).map
      (fun b => (b.status, b.total_price)) = some ("pending", (4999 : Rat)/100) := by
  constructor
  · intro db uid sid form newId now db2 h
    obtain ⟨hdb2, hfk⟩ := handleSubmit_success db uid sid form newId now db2 h
    obtain ⟨s, hs, hsid⟩ := bookingFksOk_service db (buildRow db uid sid form newId now) hfk
    refine ⟨buildRow db uid sid form newId now, s, by rw [hdb2], hs, hsid, rfl, ?_⟩
    show (match loadService db sid with
          | some s => s.base_price
          | none => 0) = s.base_price
    rw [show loadService db sid = some s from hs]
  · rfl

/-- The store state after the concrete Oil Change submit. -/
def dbAfterOil : DB :=
  { seedDb with bookings := seedDb.bookings ++ [buildRow seedDb 10 1 oilForm 101 0] }

/-- Closed instance of C3 at the seeded catalog. -/
theorem C3_created_booking_snapshot_witness :
    ∃ b s, dbAfterOil.bookings = seedDb.bookings ++ [b] ∧
      loadService seedDb 1 = some s ∧ s.id = 1 ∧
      b.status = "pending" ∧ b.total_price = s.base_price :=
  C3_created_booking_snapshot.1 seedDb 10 1 oilForm 101 0 dbAfterOil rfl

/-- **C6.** A later catalog price change on any service leaves every
booking row — in particular the `total_price` snapshot of a booking
created against that service — unchanged. -/
theorem C6_price_change_frame :
    (∀ db sid p, (updateServicePrice db sid p).bookings = db.bookings)
  ∧ (∀ db uid sid form newId now db2 p,
        handleSubmit db uid sid form newId now = .success db2 →
        ∃ b s, loadService db sid = some s ∧
          (updateServicePrice db2 sid p).bookings = db.bookings ++ [b] ∧
          b.total_price = s.base_price) := by
  constructor
  · intro db sid p
    rfl
  · intro db uid sid form newId now db2 p h
    obtain ⟨hdb2, hfk⟩ := handleSubmit_success db uid sid form newId now db2 h
    obtain ⟨s, hs, hsid⟩ := bookingFksOk_service db (buildRow db uid sid form newId now) hfk
    refine ⟨buildRow db uid sid form newId now, s, hs, ?_, ?_⟩
    · show db2.bookings = db.bookings ++ [buildRow db uid sid form newId now]
      rw [hdb2]
    · show (match loadService db sid with
            | some s => s.base_price
            | none => 0) = s.base_price
      rw [show loadService db sid = some s from hs]

/-- Closed instance of C6: raising the Oil Change price to 7 after the
concrete submit leaves the created booking's snapshot at 49.99. -/
theorem C6_price_change_frame_witness :
    ∃ b s, loadService seedDb 1 = some s ∧
      (updateServicePrice dbAfterOil 1 7).bookings = seedDb.bookings ++ [b] ∧
      b.total_price = s.base_price :=
  C6_price_change_frame.2 seedDb 10 1 oilForm 101 0 dbAfterOil 7 rfl

/-- The row adjustment a cascading mechanic delete applies to bookings
that survive a profile delete. -/
theorem deleteProfile_keeps_customer (dead : List Nat) (b : Booking) :
    (match b.mechanic_id with
     | some mid => if dead.contains mid then { b with mechanic_id := none } else b
     | none => b).customer_id = b.customer_id := by
  cases b.mechanic_id with
  | none => rfl
  | some mid =>
    dsimp only
    split <;> rfl

/-- **C7.** Deleting a mechanic nulls `mechanic_id` on the bookings that
referenced it and deletes no booking; deleting a profile removes that
profile's bookings, its mechanic rows, and the reviews where it is the
customer. -/
theorem C7_delete_cascades :
    (∀ db mid, (deleteMechanic db mid).bookings.length = db.bookings.length)
  ∧ (∀ db mid b, b ∈ db.bookings →
        (if b.mechanic_id = some mid then { b with mechanic_id := none } else b) ∈
          (deleteMechanic db mid).bookings)
  ∧ (∀ db pid b, b ∈ (deleteProfile db pid).bookings → b.customer_id ≠ pid)
  ∧ (∀ db pid m, m ∈ (deleteProfile db pid).mechanics → m.user_id ≠ pid)
  ∧ (∀ db pid r, r ∈ (deleteProfile db pid).reviews → r.customer_id ≠ pid) := by
  refine ⟨?_, ?_, ?_, ?_, ?_⟩
  · intro db mid
    simp [deleteMechanic]
  · intro db mid b hb
    exact List.mem_map_of_mem _ hb
  · intro db pid b hb
    simp only [deleteProfile, List.mem_map, List.mem_filter,
      decide_eq_true_eq] at hb
    obtain ⟨b0, ⟨-, hne⟩, rfl⟩ := hb
    rw [deleteProfile_keeps_customer]
    exact hne
  · intro db pid m hm
    simp only [deleteProfile, List.mem_filter, decide_eq_true_eq] at hm
    exact hm.2
  · intro db pid r hr
    simp only [deleteProfile, List.mem_filter, decide_eq_true_eq] at hr
    exact hr.2.1

/-- A booking of customer A assigned to mechanic 5. -/
def bookingA5 : Booking :=
  { id := 2, customer_id := 10, mechanic_id := some 5, service_id := 1,
    status := "accepted", vehicle_make := "Honda", vehicle_model := "Civic",
    vehicle_year := 2018, location_address := "2 Oak Ave",
    location_latitude := 0, location_longitude := 0, scheduled_time := 0,
    total_price := (4999 : Rat)/100, notes := "", created_at := 0,
    updated_at := 0 }

/-- The seeded store holding A's assigned booking. -/
def dbWithBookingA5 : DB :=
  { seedDb with bookings := [bookingA5] }

/-- Closed instance of C7: deleting mechanic 5 keeps A's booking with its
`mechanic_id` nulled. -/
theorem C7_delete_cascades_witness :
    (if bookingA5.mechanic_id = some 5 then { bookingA5 with mechanic_id := none }
     else bookingA5) ∈ (deleteMechanic dbWithBookingA5 5).bookings :=
  C7_delete_cascades.2.1 dbWithBookingA5 5 bookingA5 (by simp [dbWithBookingA5])

/-- A successful review INSERT appends the row and passed every gate. -/
theorem insertReview_ok (db : DB) (uid : Nat) (r : Review) (db2 : DB)
    (h : insertReview db uid r = .ok db2) :
    db2 = { db with reviews := db.reviews ++ [r] } ∧
      reviewInsertCheck uid r = true ∧ reviewFksOk db r = true ∧
      validRating r.rating = true := by
  unfold insertReview at h
  split at h
  · cases h
  · split at h
    · cases h
    · split at h
      · cases h
      · rename_i h1 h2 h3
        cases h
        simp only [Bool.not_eq_true', Bool.not_eq_false] at h1 h2 h3
        exact ⟨rfl, h1, h2, h3⟩

/-- **C9.** Every persisted review has an integer rating in [1,5]; an
insert with a rating outside that range is rejected, so no new store
state results from it. -/
theorem C9_review_rating_range :
    (∀ db uid r db2, insertReview db uid r = .ok db2 →
        (∀ x ∈ db.reviews, validRating x.rating = true) →
        ∀ x ∈ db2.reviews, validRating x.rating = true)
  ∧ (∀ db uid r, validRating r.rating = false →
        ∀ db2, insertReview db uid r ≠ .ok db2) := by
  constructor
  · intro db uid r db2 h hall x hx
    obtain ⟨hdb2, -, -, hvr⟩ := insertReview_ok db uid r db2 h
    subst hdb2
    simp only [List.mem_append, List.mem_singleton] at hx
    rcases hx with hx | rfl
    · exact hall x hx
    · exact hvr
  · intro db uid r hvr db2 h
    obtain ⟨-, -, -, hok⟩ := insertReview_ok db uid r db2 h
    rw [hvr] at hok
    cases hok

/-- A review with rating 9 (outside the valid range). -/
def badReview : Review :=
  { id := 1, booking_id := 1, customer_id := 10, mechanic_id := 5,
    rating := 9, comment := "", created_at := 0 }

/-- Closed instance of C9: inserting a rating-9 review into the seeded
store yields no new store state. -/
theorem C9_review_rating_range_witness :
    insertReview dbWithBookingB 10 badReview ≠ .ok dbWithBookingB :=
  C9_review_rating_range.2 dbWithBookingB 10 badReview rfl dbWithBookingB

/-- **C10.** The review INSERT permission checks only
`customer_id = auth.uid()`; whenever that equality, the foreign keys and
the rating constraint hold, the insert succeeds — nothing about the
referenced booking's status, its owner, or previously existing reviews is
consulted. -/
theorem C10_review_insert_unrestricted :
    (∀ uid r, reviewInsertCheck uid r = true ↔ r.customer_id = uid)
  ∧ (∀ db uid r, r.customer_id = uid → reviewFksOk db r = true →
        validRating r.rating = true →
        insertReview db uid r = .ok { db with reviews := db.reviews ++ [r] }) := by
  constructor
  · intro uid r
    simp [reviewInsertCheck]
  · intro db uid r hc hfk hvr
    simp [insertReview, reviewInsertCheck, hc, hfk, hvr]

/-- A review already present on B's booking, written by B. -/
def rev0 : Review :=
  { id := 1, booking_id := 1, customer_id := 11, mechanic_id := 5,
    rating := 5, comment := "", created_at := 0 }

/-- A second review on the same booking, written by A — the booking is
B's and still pending. -/
def rev1 : Review :=
  { id := 2, booking_id := 1, customer_id := 10, mechanic_id := 5,
    rating := 1, comment := "", created_at := 0 }

/-- The seeded store with B's pending booking and B's review of it. -/
def dbWithRev : DB :=
  { seedDb with bookings := [bookingB], reviews := [rev0] }

/-- Closed instance of C10: A inserts a review of B's pending,
already-reviewed booking, and the insert succeeds. -/
theorem C10_review_insert_unrestricted_witness :
    insertReview dbWithRev 10 rev1 =
      .ok { dbWithRev with reviews := dbWithRev.reviews ++ [rev1] } :=
  C10_review_insert_unrestricted.2 dbWithRev 10 rev1 rfl rfl rfl

/-- A successful booking UPDATE replaced the row in place and passed
every gate. -/
theorem updateBookingRow_ok (db : DB) (uid : Nat) (old new : Booking) (db2 : DB)
    (h : updateBookingRow db uid old new = .ok db2) :
    db2 = { db with bookings := db.bookings.map (fun b => if b = old then new else b) } ∧
      bookingUpdateUsing db uid old = true ∧ bookingUpdateCheck db uid new = true ∧
      validStatus new.status = true ∧ bookingFksOk db new = true := by
  unfold updateBookingRow at h
  split at h
  · cases h
  · split at h
    · cases h
    · split at h
      · cases h
      · split at h
        · cases h
        · rename_i h1 h2 h3 h4
          cases h
          simp only [Bool.not_eq_true', Bool.not_eq_false] at h1 h2 h3 h4
          exact ⟨rfl, h1, h2, h3, h4⟩

/-- **C4.** Every persisted booking status lies in the five-value domain
of the `valid_status` constraint — writes with any other value are
rejected — and the server imposes nothing more on status: an authorized
writer may move a booking from any current status to any of the five
values in a single update (for example `pending` directly to
`completed`). -/
theorem C4_status_domain :
    (∀ db uid b db2, insertBooking db uid b = .ok db2 →
        (∀ x ∈ db.bookings, validStatus x.status = true) →
        ∀ x ∈ db2.bookings, validStatus x.status = true)
  ∧ (∀ db uid old new db2, updateBookingRow db uid old new = .ok db2 →
        (∀ x ∈ db.bookings, validStatus x.status = true) →
        ∀ x ∈ db2.bookings, validStatus x.status = true)
  ∧ (∀ db uid old new, validStatus new.status = false →
        ∀ db2, updateBookingRow db uid old new ≠ .ok db2)
  ∧ (∀ db uid old s2, old.customer_id = uid → bookingFksOk db old = true →
        validStatus s2 = true →
        ∃ db2, updateBookingRow db uid old { old with status := s2 } = .ok db2) := by
  refine ⟨?_, ?_, ?_, ?_⟩
  · intro db uid b db2 h hall x hx
    obtain ⟨hdb2, -, -, hvs⟩ := insertBooking_ok db uid b db2 h
    subst hdb2
    simp only [List.mem_append, List.mem_singleton] at hx
    rcases hx with hx | rfl
    · exact hall x hx
    · exact hvs
  · intro db uid old new db2 h hall x hx
    obtain ⟨hdb2, -, -, hvs, -⟩ := updateBookingRow_ok db uid old new db2 h
    subst hdb2
    simp only [List.mem_map] at hx
    obtain ⟨b0, hb0, rfl⟩ := hx
    by_cases hb : b0 = old
    · rw [if_pos hb]
      exact hvs
    · rw [if_neg hb]
      exact hall b0 hb0
  · intro db uid old new hvs db2 h
    obtain ⟨-, -, -, hok, -⟩ := updateBookingRow_ok db uid old new db2 h
    rw [hvs] at hok
    cases hok
  · intro db uid old s2 hc hfk hvs
    have hu : bookingUpdateUsing db uid old = true := by
      simp [bookingUpdateUsing, hc]
    have hch : bookingUpdateCheck db uid { old with status := s2 } = true := by
      simp [bookingUpdateCheck, hc]
    have hfk2 : bookingFksOk db { old with status := s2 } = true := hfk
    refine ⟨{ db with
        bookings := db.bookings.map
          (fun b => if b = old then { old with status := s2 } else b) }, ?_⟩
    unfold updateBookingRow
    rw [hu, hch, hvs, hfk2]
    rfl

/-- Closed instance of C4: B moves their pending, unassigned booking
directly to `completed` in one update. -/
theorem C4_status_domain_witness :
    ∃ db2, updateBookingRow dbWithBookingB 11 bookingB
      { bookingB with status := "completed" } = .ok db2 :=
  C4_status_domain.2.2.2 dbWithBookingB 11 bookingB "completed" rfl rfl rfl

/-- Counterexample to C8.  Customer A (identity 10) updates their booking
although mechanic 5 is assigned — the customer policy carries no
`mechanic_id IS NULL` condition — and mechanic-owner 20 changes
`total_price`, a field other than `status` — the mechanic policy carries
no column restriction. -/
theorem C8_counterexample :
    (∃ db2, updateBookingRow dbWithBookingA5 10 bookingA5
        { bookingA5 with notes := "changed by customer after assignment" } = .ok db2)
  ∧ (∃ db2, updateBookingRow dbWithBookingA5 20 bookingA5
        { bookingA5 with total_price := 0 } = .ok db2) :=
  ⟨⟨_, rfl⟩, ⟨_, rfl⟩⟩

/-- **C8 (amended).** An update to a booking succeeds exactly when a
USING policy passes the pre-image, a WITH CHECK policy passes the
post-image, and the status constraint and foreign keys hold; the customer
passes both policy sides whenever both images carry the customer's id —
with no condition on `mechanic_id` — and the owner of an assigned
mechanic passes both sides for a change to any field whatsoever, provided
both images keep that `mechanic_id`. -/
theorem C8_amended_update_policy :
    (∀ db uid old new,
        (∃ db2, updateBookingRow db uid old new = .ok db2) ↔
          (bookingUpdateUsing db uid old = true ∧ bookingUpdateCheck db uid new = true ∧
           validStatus new.status = true ∧ bookingFksOk db new = true))
  ∧ (∀ db uid old new, old.customer_id = uid → new.customer_id = uid →
        bookingUpdateUsing db uid old = true ∧ bookingUpdateCheck db uid new = true)
  ∧ (∀ db uid mid old new, old.mechanic_id = some mid → new.mechanic_id = some mid →
        (mechanicIdsOf db uid).contains mid = true →
        bookingUpdateUsing db uid old = true ∧ bookingUpdateCheck db uid new = true) := by
  refine ⟨?_, ?_, ?_⟩
  · intro db uid old new
    constructor
    · rintro ⟨db2, h⟩
      obtain ⟨-, h1, h2, h3, h4⟩ := updateBookingRow_ok db uid old new db2 h
      exact ⟨h1, h2, h3, h4⟩
    · rintro ⟨h1, h2, h3, h4⟩
      refine ⟨{ db with
          bookings := db.bookings.map (fun b => if b = old then new else b) }, ?_⟩
      unfold updateBookingRow
      rw [h1, h2, h3, h4]
      rfl
  · intro db uid old new hold hnew
    constructor
    · simp [bookingUpdateUsing, hold]
    · simp [bookingUpdateCheck, hnew]
  · intro db uid mid old new hold hnew hmid
    constructor
    · simp only [bookingUpdateUsing, hold, Bool.or_eq_true, beq_iff_eq]
      exact Or.inr hmid
    · simp only [bookingUpdateCheck, hnew, Bool.or_eq_true, beq_iff_eq]
      exact Or.inr hmid

/-- Closed instance of amended C8: mechanic-owner 20 passes both policy
sides of an update that changes only `total_price` on the assigned
booking. -/
theorem C8_amended_update_policy_witness :
    bookingUpdateUsing dbWithBookingA5 20 bookingA5 = true ∧
      bookingUpdateCheck dbWithBookingA5 20 { bookingA5 with total_price := 0 } = true :=
  C8_amended_update_policy.2.2 dbWithBookingA5 20 5 bookingA5
    { bookingA5 with total_price := 0 } rfl rfl rfl

/-- The Oil Change form with every text field filled but no mechanic
picked. -/
def formNoMech : CreateForm :=
  { oilForm with selectedMechanic := none }

/-- Counterexample to C2.  With the vehicle fields, the address and a
resolvable service reference all present, submitting without a mechanic
pick still fails client-side validation — mechanic selection is required,
not optional; the identical form with mechanic 5 picked goes through. -/
theorem C2_counterexample :
    handleSubmit seedDb 10 1 formNoMech 101 0 = .validationFailed ∧
      handleSubmit seedDb 10 1 oilForm 101 0 = .success dbAfterOil :=
  ⟨rfl, rfl⟩

/-- **C2 (amended).** Submission fails with the validation message
exactly when one of vehicle make, vehicle model, vehicle year, location
address is empty or no mechanic is selected (mechanic selection is
required).  The service reference is not part of the client-side
validation and no client NotFoundError exists: when the service id does
not resolve, the submit goes ahead with `total_price` 0 and the store
rejects the insert on the `service_id` foreign key.  An insert whose
`customer_id` differs from the authenticated principal is rejected by the
store's row-security policy. -/
theorem C2_amended_create_validation :
    (∀ db uid sid form newId now,
        handleSubmit db uid sid form newId now = .validationFailed ↔
          (form.vehicleMake = "" ∨ form.vehicleModel = "" ∨ form.vehicleYear = "" ∨
           form.locationAddress = "" ∨ form.selectedMechanic = none))
  ∧ (∀ db uid sid form newId now,
        loadService db sid = none →
        handleSubmit db uid sid form newId now ≠ .validationFailed →
        handleSubmit db uid sid form newId now = .dbRejected .fkViolation ∧
          (buildRow db uid sid form newId now).total_price = 0)
  ∧ (∀ db uid b, b.customer_id ≠ uid →
        insertBooking db uid b = .error .rlsDenied) := by
  have hval : ∀ db uid sid (form : CreateForm) newId now,
      handleSubmit db uid sid form newId now = .validationFailed ↔
        (form.vehicleMake = "" ∨ form.vehicleModel = "" ∨ form.vehicleYear = "" ∨
         form.locationAddress = "" ∨ form.selectedMechanic = none) := by
    intro db uid sid form newId now
    unfold handleSubmit
    split
    · rename_i hg
      simp only [Bool.or_eq_true, beq_iff_eq] at hg
      constructor
      · intro _
        tauto
      · intro _
        rfl
    · rename_i hg
      simp only [Bool.or_eq_true, beq_iff_eq] at hg
      constructor
      · intro h
        rcases hins : insertBooking db uid (buildRow db uid sid form newId now) with e | d
        · rw [hins] at h
          cases h
        · rw [hins] at h
          cases h
      · intro hor
        exact absurd (show _ by tauto) hg
  refine ⟨hval, ?_, ?_⟩
  · intro db uid sid form newId now hnone hnv
    have hg : ¬(form.vehicleMake == "" || form.vehicleModel == "" ||
        form.vehicleYear == "" || form.locationAddress == "" ||
        form.selectedMechanic == none) = true := by
      intro hg
      apply hnv
      unfold handleSubmit
      rw [if_pos hg]
    have hsvc : db.services.any (fun s => s.id == sid) = false := by
      rw [List.any_eq_false]
      intro s hs hp
      unfold loadService at hnone
      rw [List.find?_eq_none] at hnone
      exact hnone s hs hp
    have hfk : bookingFksOk db (buildRow db uid sid form newId now) = false := by
      simp only [bookingFksOk, buildRow]
      rw [hsvc]
      simp
    constructor
    · unfold handleSubmit
      rw [if_neg hg]
      unfold insertBooking
      rw [show bookingInsertCheck uid (buildRow db uid sid form newId now) = true by
        simp [bookingInsertCheck, buildRow]]
      rw [hfk]
      rfl
    · show (match loadService db sid with
            | some s => s.base_price
            | none => (0 : Rat)) = (0 : Rat)
      rw [hnone]
  · intro db uid b hne
    unfold insertBooking
    rw [show bookingInsertCheck uid b = false by simp [bookingInsertCheck, hne]]
    rfl

/-- Closed instance of amended C2: inserting a booking whose
`customer_id` is B (11) as principal A (10) is denied by the row-security
policy. -/
theorem C2_amended_create_validation_witness :
    insertBooking seedDb 10 bookingB = .error .rlsDenied :=
  C2_amended_create_validation.2.2 seedDb 10 bookingB (by decide)

/-- After one acceptance was applied, no row still satisfies the
conditional-update predicate for the same booking id. -/
theorem accept_filter_empty (db : DB) (bid m1 : Nat) :
    ((db.bookings.map (fun b =>
        if b.id == bid && b.status == "pending" && b.mechanic_id == none then
          { b with mechanic_id := some m1, status := "accepted" }
        else b)).filter
      (fun b => b.id == bid && b.status == "pending" && b.mechanic_id == none)) = [] := by
  rw [List.filter_eq_nil_iff]
  intro b hb
  rw [List.mem_map] at hb
  obtain ⟨b0, hb0, rfl⟩ := hb
  by_cases h : (b0.id == bid && b0.status == "pending" && b0.mechanic_id == none) = true
  · rw [if_pos h]
    simp
  · rw [if_neg h]
    simpa using h

/-- **C5.** Of two acceptance attempts on the same booking by different
mechanics, at most one succeeds: once one conditional update has won, the
other attempt matches zero rows and observes the Conflict outcome. -/
theorem C5_accept_conflict :
    ∀ db bid m1 m2 db2, m1 ≠ m2 →
      acceptBooking db bid m1 = .accepted db2 →
      acceptBooking db2 bid m2 = .conflict := by
  intro db bid m1 m2 db2 hne h
  unfold acceptBooking at h
  split at h
  · cases h
  · cases h
    unfold acceptBooking
    rw [accept_filter_empty db bid m1]
    rfl

/-- The store after mechanic 5 won the acceptance of B's booking. -/
def dbAccepted5 : DB :=
  { dbWithBookingB with
      bookings := dbWithBookingB.bookings.map
        (fun b =>
          if b.id == 1 && b.status == "pending" && b.mechanic_id == none then
            { b with mechanic_id := some 5, status := "accepted" }
          else b) }

/-- Closed instance of C5: mechanic 5 wins the pending booking; mechanic
6's attempt then observes Conflict. -/
theorem C5_accept_conflict_witness :
    acceptBooking dbAccepted5 1 6 = .conflict :=
  C5_accept_conflict dbWithBookingB 1 5 6 dbAccepted5 (by decide) rfl
